import Mathlib

set_option maxHeartbeats 1000000

/-!
Verification of the staged-initialization lifecycle of
x-pack/plugins/reporting/server/plugin.ts (class ReportingPlugin).

The plugin is embedded as a labeled transition system.  The host-facing
calls setup() and start() are pure functions (doSetup / doStart) whose
only asynchronous effect is to schedule a background task; the two
background async IIFEs (the "async background setup" block and the
"async background start" block of plugin.ts) are cut at their statement
boundaries into atomic steps.  An execution of the program is a list of
steps that is valid from the initial state: every interleaving of the
host calls and the two background tasks that respects the await
dependencies is a valid trace, so theorems quantified over valid traces
cover every execution the JavaScript event loop can produce (JavaScript
only interleaves at awaits, which is a subset of these interleavings).
-/

/-- Identity of the contract object handed to the host.  Modelled from the
spec: ReportingCore.getStartContract is not under src/; the spec states the
StartContract is a stable reference (same identity across calls) owned by
the core, so its identity is the identity of the owning ReportingCore. -/
structure StartContract where
  coreId : Nat
deriving DecidableEq, Repr

/-- Log messages emitted by plugin.ts through this.logger. -/
inductive LogMsg where
  /-- logger.error in the .catch of the background setup task. -/
  | setupErr
  /-- logger.error in the .catch of the background start task. -/
  | startErr
  /-- logger.error in the route handler context callback when the core has
  not started. -/
  | notReadyErr
  /-- logger.debug at the end of the background setup task. -/
  | setupCompleteDbg
  /-- logger.debug at the end of the background start task. -/
  | startCompleteDbg
deriving DecidableEq, Repr

/-- Errors that escape to the host call stack. -/
inductive HostError where
  /-- The TypeError raised by dereferencing this.reportingCore when it is
  undefined (the non-null assertion in start()). -/
  | typeError
deriving DecidableEq, Repr

/-- Program counter of the background setup task of setup() (plugin.ts,
the async IIFE after the comment "async background setup"). -/
inductive SetupPc where
  /-- About to run: const config = await buildConfig(...). -/
  | atResolve
  /-- About to run: reportingCore.setConfig(config). -/
  | atSetConfig
  /-- About to run: reportingCore.registerFeature(). -/
  | atRegister
  /-- About to run: logger.debug of setup completion; the promise then
  resolves, which is what pluginSetsUp() awaits. -/
  | atComplete
  /-- The task body threw; about to run the .catch handler. -/
  | atCatch
  /-- The task has finished. -/
  | done
deriving DecidableEq, Repr

/-- Program counter of the background start task of start() (plugin.ts,
the async IIFE after the comment "async background start"). -/
inductive StartPc where
  /-- About to run: await reportingCore.pluginSetsUp(). -/
  | atAwait
  /-- About to run: const config = reportingCore.getConfig(). -/
  | atGetConfig
  /-- About to run: await initializeBrowserDriverFactory(config, logger). -/
  | atBrowser
  /-- About to run: const store = new ReportingStore(reportingCore, logger). -/
  | atStore
  /-- About to run: await createQueueFactory(...), which starts polling for
  pending jobs. -/
  | atQueue
  /-- About to run: reportingCore.pluginStart({...}). -/
  | atPluginStart
  /-- The task body threw; about to run the .catch handler. -/
  | atCatchT
  /-- The task has finished. -/
  | doneT
deriving DecidableEq, Repr

/-- State of one ReportingPlugin instance together with its ReportingCore
and its two background tasks.  Boolean fields record which effects of
plugin.ts have happened; the core-owned fields (configSet, setupDone,
started) are modelled from the spec because ReportingCore is not under
src/: setConfig stores the config, pluginSetsUp resolves once the setup
task completes, pluginStart makes pluginIsStarted return true. -/
structure ExecState where
  /-- setup() has been called (the background setup task exists). -/
  setupScheduled : Bool := false
  /-- start() has been called (the background start task exists). -/
  startScheduled : Bool := false
  /-- this.reportingCore has been assigned (end of setup()). -/
  coreCreated : Bool := false
  /-- Identity of the current ReportingCore (0 when none). -/
  coreId : Nat := 0
  /-- core.http.registerRouteHandlerContext has been called. -/
  handlerRegistered : Bool := false
  /-- registerUiSettings(core) has been called. -/
  uiSettingsRegistered : Bool := false
  /-- registerRoutes(reportingCore, logger) has been called. -/
  routesRegistered : Bool := false
  /-- registerReportingUsageCollector has been called. -/
  usageRegistered : Bool := false
  /-- setFieldFormats(plugins.data.fieldFormats) has been called. -/
  fieldFormatsSet : Bool := false
  /-- reportingCore.setConfig(config) has run: Config is resolved. -/
  configSet : Bool := false
  /-- Number of times reportingCore.registerFeature() has been invoked. -/
  featureInvocations : Nat := 0
  /-- The background setup task completed successfully (SetupComplete);
  this is what reportingCore.pluginSetsUp() awaits. -/
  setupDone : Bool := false
  /-- The background setup task ended in its .catch handler (Failed). -/
  setupFailed : Bool := false
  /-- The background start task ended in its .catch handler (Failed). -/
  startFailed : Bool := false
  /-- initializeBrowserDriverFactory succeeded. -/
  browserInit : Bool := false
  /-- new ReportingStore(...) has run. -/
  storeCreated : Bool := false
  /-- createQueueFactory succeeded: the queue polls for pending jobs. -/
  pollingStarted : Bool := false
  /-- reportingCore.pluginStart({...}) has run: pluginIsStarted() is true
  (lifecycle Ready). -/
  started : Bool := false
  /-- An exception escaped to the host synchronous call stack. -/
  hostErr : Bool := false
  /-- Program counter of the background setup task. -/
  setupPC : SetupPc := SetupPc.atResolve
  /-- Program counter of the background start task. -/
  startPC : StartPc := StartPc.atAwait
  /-- Messages logged so far, in order. -/
  log : List LogMsg := []
deriving DecidableEq, Repr

/-- The state of a freshly constructed ReportingPlugin. -/
def initState : ExecState := {}

/-- Modelled from the spec: ReportingCore.pluginIsStarted is not under
src/; per the spec the readiness query is true iff the lifecycle reached
Ready, which happens when pluginStart has run. -/
def pluginIsStarted (s : ExecState) : Bool := s.started

/-- The synchronous body of ReportingPlugin.setup (plugin.ts): creates a
new ReportingCore, registers the route handler context, ui settings,
usage collector and routes, calls pluginSetup, schedules the background
setup task (without running any of it), stores this.reportingCore, and
returns reportingCore.getStartContract(). -/
def doSetup (s : ExecState) : ExecState × StartContract :=
  ({ s with
      setupScheduled := true
      coreCreated := true
      coreId := s.coreId + 1
      handlerRegistered := true
      uiSettingsRegistered := true
      routesRegistered := true
      usageRegistered := true
      setupPC := SetupPc.atResolve },
   { coreId := s.coreId + 1 })

/-- The synchronous body of ReportingPlugin.start (plugin.ts): calls
setFieldFormats, reads this.reportingCore with a non-null assertion,
schedules the background start task (without running any of it), and
returns reportingCore.getStartContract().  When setup() was never called,
this.reportingCore is undefined: the dereference inside the async IIFE
rejects the task promise (routed to its .catch), and the dereference in
the return statement throws a TypeError synchronously to the host. -/
def doStart (s : ExecState) : ExecState × Except HostError StartContract :=
  if s.coreCreated then
    ({ s with
        fieldFormatsSet := true
        startScheduled := true
        startPC := StartPc.atAwait },
     Except.ok { coreId := s.coreId })
  else
    ({ s with
        fieldFormatsSet := true
        startScheduled := true
        startPC := StartPc.atCatchT
        hostErr := true },
     Except.error HostError.typeError)

/-- The route handler context callback registered in setup (plugin.ts):
if reportingCore.pluginIsStarted() it returns the start contract,
otherwise it logs an error and returns null. -/
def routeHandlerContext (s : ExecState) : ExecState × Option StartContract :=
  if pluginIsStarted s then
    (s, some { coreId := s.coreId })
  else
    ({ s with log := s.log ++ [LogMsg.notReadyErr] }, none)

/-- Atomic steps of an execution: the two host calls, the statements of
the background setup task, and the statements of the background start
task.  Steps that the code awaits and that can reject carry a Bool for
whether the awaited operation succeeded. -/
inductive Step where
  /-- The host calls plugin.setup(core, plugins). -/
  | callSetup
  /-- The host calls plugin.start(core, plugins). -/
  | callStart
  /-- Background setup: await buildConfig(initContext, core, logger). -/
  | sResolveConfig (ok : Bool)
  /-- Background setup: reportingCore.setConfig(config). -/
  | sSetConfig
  /-- Background setup: reportingCore.registerFeature(). -/
  | sRegisterFeature (ok : Bool)
  /-- Background setup: the setup debug log; the task promise resolves
  (SetupComplete). -/
  | sComplete
  /-- Background setup: the .catch handler (logs the error). -/
  | sCatch
  /-- Background start: await reportingCore.pluginSetsUp(); only
  schedulable once the setup task has completed. -/
  | tAwaitSetup
  /-- Background start: const config = reportingCore.getConfig(). -/
  | tGetConfig
  /-- Background start: await initializeBrowserDriverFactory(config, l). -/
  | tInitBrowser (ok : Bool)
  /-- Background start: const store = new ReportingStore(core, logger). -/
  | tInitStore
  /-- Background start: await createQueueFactory(...); on success the
  queue starts polling for pending jobs. -/
  | tCreateQueue (ok : Bool)
  /-- Background start: reportingCore.pluginStart({...}). -/
  | tPluginStart
  /-- Background start: the .catch handler (logs the error). -/
  | tCatch
deriving DecidableEq, Repr

/-- Whether a step may fire in a state: host calls fire at most once; a
background step fires when its task is scheduled and its program counter
is at that statement; tAwaitSetup additionally needs the setup task to
have completed (pluginSetsUp only resolves then — modelled from the spec,
ReportingCore being outside src/). -/
def enabled (s : ExecState) (a : Step) : Bool :=
  match a with
  | Step.callSetup => !s.setupScheduled
  | Step.callStart => !s.startScheduled
  | Step.sResolveConfig _ => s.setupScheduled && decide (s.setupPC = SetupPc.atResolve)
  | Step.sSetConfig => s.setupScheduled && decide (s.setupPC = SetupPc.atSetConfig)
  | Step.sRegisterFeature _ => s.setupScheduled && decide (s.setupPC = SetupPc.atRegister)
  | Step.sComplete => s.setupScheduled && decide (s.setupPC = SetupPc.atComplete)
  | Step.sCatch => s.setupScheduled && decide (s.setupPC = SetupPc.atCatch)
  | Step.tAwaitSetup => s.startScheduled && decide (s.startPC = StartPc.atAwait) && s.setupDone
  | Step.tGetConfig => s.startScheduled && decide (s.startPC = StartPc.atGetConfig)
  | Step.tInitBrowser _ => s.startScheduled && decide (s.startPC = StartPc.atBrowser)
  | Step.tInitStore => s.startScheduled && decide (s.startPC = StartPc.atStore)
  | Step.tCreateQueue _ => s.startScheduled && decide (s.startPC = StartPc.atQueue)
  | Step.tPluginStart => s.startScheduled && decide (s.startPC = StartPc.atPluginStart)
  | Step.tCatch => s.startScheduled && decide (s.startPC = StartPc.atCatchT)

/-- Effect of a step on the state, statement by statement from plugin.ts.
A failing awaited step routes the task to its .catch handler; getConfig
throws (routing to .catch) when the config has not been set, per the spec
contract that reading Config before it is resolved is an error. -/
def applyStep (s : ExecState) (a : Step) : ExecState :=
  match a with
  | Step.callSetup => (doSetup s).1
  | Step.callStart => (doStart s).1
  | Step.sResolveConfig ok =>
      if ok then { s with setupPC := SetupPc.atSetConfig }
      else { s with setupPC := SetupPc.atCatch }
  | Step.sSetConfig => { s with configSet := true, setupPC := SetupPc.atRegister }
  | Step.sRegisterFeature ok =>
      { s with
          featureInvocations := s.featureInvocations + 1
          setupPC := if ok then SetupPc.atComplete else SetupPc.atCatch }
  | Step.sComplete =>
      { s with setupDone := true, setupPC := SetupPc.done,
               log := s.log ++ [LogMsg.setupCompleteDbg] }
  | Step.sCatch =>
      { s with setupFailed := true, setupPC := SetupPc.done,
               log := s.log ++ [LogMsg.setupErr] }
  | Step.tAwaitSetup => { s with startPC := StartPc.atGetConfig }
  | Step.tGetConfig =>
      if s.configSet then { s with startPC := StartPc.atBrowser }
      else { s with startPC := StartPc.atCatchT }
  | Step.tInitBrowser ok =>
      if ok then { s with browserInit := true, startPC := StartPc.atStore }
      else { s with startPC := StartPc.atCatchT }
  | Step.tInitStore => { s with storeCreated := true, startPC := StartPc.atQueue }
  | Step.tCreateQueue ok =>
      if ok then { s with pollingStarted := true, startPC := StartPc.atPluginStart }
      else { s with startPC := StartPc.atCatchT }
  | Step.tPluginStart =>
      { s with started := true, startPC := StartPc.doneT,
               log := s.log ++ [LogMsg.startCompleteDbg] }
  | Step.tCatch =>
      { s with startFailed := true, startPC := StartPc.doneT,
               log := s.log ++ [LogMsg.startErr] }

/-- Runs a list of steps from a state. -/
def run (s : ExecState) (t : List Step) : ExecState :=
  t.foldl applyStep s

/-- A trace is valid from a state when each step is enabled where it
fires. -/
def validFrom (s : ExecState) : List Step → Bool
  | [] => true
  | a :: t => enabled s a && validFrom (applyStep s a) t

/-- One representative of every step shape (the Bool argument never
affects enabledness). -/
def stepReps : List Step :=
  [Step.callSetup, Step.callStart,
   Step.sResolveConfig true, Step.sResolveConfig false, Step.sSetConfig,
   Step.sRegisterFeature true, Step.sRegisterFeature false, Step.sComplete,
   Step.sCatch, Step.tAwaitSetup, Step.tGetConfig,
   Step.tInitBrowser true, Step.tInitBrowser false, Step.tInitStore,
   Step.tCreateQueue true, Step.tCreateQueue false, Step.tPluginStart,
   Step.tCatch]

/-- A state is complete when no step is enabled: the execution can make
no further progress. -/
def isComplete (s : ExecState) : Bool :=
  stepReps.all fun a => !enabled s a

/-- Background-task steps: everything except the two host calls. -/
def isBgStep : Step → Bool
  | Step.callSetup => false
  | Step.callStart => false
  | _ => true

/-- Steps at which the background setup task throws. -/
def isSetupFailStep : Step → Bool
  | Step.sResolveConfig ok => !ok
  | Step.sRegisterFeature ok => !ok
  | _ => false

/-- Steps at which the background start task throws. -/
def isStartFailStep : Step → Bool
  | Step.tInitBrowser ok => !ok
  | Step.tCreateQueue ok => !ok
  | _ => false

/-- Predicate selecting invocations of registerFeature. -/
def isRegStep : Step → Bool
  | Step.sRegisterFeature _ => true
  | _ => false

/-- Number of invocations of reportingCore.registerFeature() in a trace. -/
def countRegister (t : List Step) : Nat :=
  t.countP isRegStep

/-- A successful execution: setup, the whole setup task, start, the whole
start task. -/
def demoTrace : List Step :=
  [Step.callSetup, Step.sResolveConfig true, Step.sSetConfig,
   Step.sRegisterFeature true, Step.sComplete, Step.callStart,
   Step.tAwaitSetup, Step.tGetConfig, Step.tInitBrowser true,
   Step.tInitStore, Step.tCreateQueue true, Step.tPluginStart]

/-- An execution in which config resolution fails and both host calls
were made; it is complete (the start task is parked forever on
pluginSetsUp). -/
def failTrace : List Step :=
  [Step.callSetup, Step.sResolveConfig false, Step.sCatch, Step.callStart]

/-- An execution in which browser driver initialization fails during the
start task. -/
def browserFailTrace : List Step :=
  [Step.callSetup, Step.sResolveConfig true, Step.sSetConfig,
   Step.sRegisterFeature true, Step.sComplete, Step.callStart,
   Step.tAwaitSetup, Step.tGetConfig, Step.tInitBrowser false, Step.tCatch]


/-! ## Generic trace lemmas -/

lemma run_nil (s : ExecState) : run s [] = s := rfl

lemma run_cons (s : ExecState) (a : Step) (t : List Step) :
    run s (a :: t) = run (applyStep s a) t := rfl

lemma run_append (s : ExecState) (l₁ l₂ : List Step) :
    run s (l₁ ++ l₂) = run (run s l₁) l₂ := by
  simp [run, List.foldl_append]

lemma validFrom_append (s : ExecState) (l₁ l₂ : List Step) :
    validFrom s (l₁ ++ l₂) = (validFrom s l₁ && validFrom (run s l₁) l₂) := by
  induction l₁ generalizing s with
  | nil => simp [validFrom, run_nil]
  | cons a t ih =>
      simp only [List.cons_append, validFrom, run_cons, Bool.and_assoc]
      exact congrArg (fun b => enabled s a && b) (ih (applyStep s a))

lemma inv_run (P : ExecState → Prop)
    (hstep : ∀ s a, P s → enabled s a = true → P (applyStep s a)) :
    ∀ (t : List Step) (s : ExecState), P s → validFrom s t = true → P (run s t) := by
  intro t
  induction t with
  | nil => intro s hP _; exact hP
  | cons a t ih =>
      intro s hP hv
      rw [validFrom, Bool.and_eq_true] at hv
      exact ih (applyStep s a) (hstep s a hP hv.1) hv.2

lemma flag_history (f : ExecState → Bool) (g : Step)
    (hset : ∀ s a, f (applyStep s a) = true → f s = true ∨ a = g) :
    ∀ (t : List Step) (s : ExecState), f s = false → f (run s t) = true → g ∈ t := by
  intro t
  induction t with
  | nil =>
      intro s h0 h1
      rw [run_nil] at h1
      rw [h0] at h1
      exact absurd h1 (by simp)
  | cons a t ih =>
      intro s h0 h1
      by_cases hfa : f (applyStep s a) = true
      · rcases hset s a hfa with h | h
        · rw [h0] at h; exact absurd h (by simp)
        · rw [h]; exact List.mem_cons_self g t
      · rw [run_cons] at h1
        exact List.mem_cons_of_mem a
          (ih (applyStep s a) (by simpa using hfa) h1)

lemma complete_not_enabled (s : ExecState) (a : Step) (ha : a ∈ stepReps)
    (hc : isComplete s = true) : enabled s a = false := by
  rw [isComplete, List.all_eq_true] at hc
  simpa using hc a ha

/-! ## Field monotonicity and only-setter lemmas -/

lemma mono_setupScheduled (s : ExecState) (a : Step)
    (h : s.setupScheduled = true) : (applyStep s a).setupScheduled = true := by
  cases a <;> simp [applyStep, doSetup, doStart, h] <;> split <;> simp [h]

lemma mono_startScheduled (s : ExecState) (a : Step)
    (h : s.startScheduled = true) : (applyStep s a).startScheduled = true := by
  cases a <;> simp [applyStep, doSetup, doStart, h] <;> split <;> simp [h]

lemma mono_setupDone (s : ExecState) (a : Step)
    (h : s.setupDone = true) : (applyStep s a).setupDone = true := by
  cases a <;> simp [applyStep, doSetup, doStart, h] <;> split <;> simp [h]

lemma mono_setupFailed (s : ExecState) (a : Step)
    (h : s.setupFailed = true) : (applyStep s a).setupFailed = true := by
  cases a <;> simp [applyStep, doSetup, doStart, h] <;> split <;> simp [h]

lemma mono_startFailed (s : ExecState) (a : Step)
    (h : s.startFailed = true) : (applyStep s a).startFailed = true := by
  cases a <;> simp [applyStep, doSetup, doStart, h] <;> split <;> simp [h]

lemma log_mono (s : ExecState) (a : Step) (m : LogMsg)
    (h : m ∈ s.log) : m ∈ (applyStep s a).log := by
  cases a <;> simp [applyStep, doSetup, doStart, h] <;> split <;> simp [h]

lemma setupDone_setter (s : ExecState) (a : Step)
    (h : (applyStep s a).setupDone = true) :
    s.setupDone = true ∨ a = Step.sComplete := by
  cases a <;> simp_all [applyStep, doSetup, doStart] <;>
    revert h <;> split <;> simp_all

lemma configSet_setter (s : ExecState) (a : Step)
    (h : (applyStep s a).configSet = true) :
    s.configSet = true ∨ a = Step.sSetConfig := by
  cases a <;> simp_all [applyStep, doSetup, doStart] <;>
    revert h <;> split <;> simp_all

lemma spcAtSetConfig_setter (s : ExecState) (a : Step)
    (h : (applyStep s a).setupPC = SetupPc.atSetConfig) :
    s.setupPC = SetupPc.atSetConfig ∨ a = Step.sResolveConfig true := by
  cases a <;> simp_all [applyStep, doSetup, doStart] <;>
    revert h <;> split <;> simp_all

lemma spcAtComplete_setter (s : ExecState) (a : Step)
    (h : (applyStep s a).setupPC = SetupPc.atComplete) :
    s.setupPC = SetupPc.atComplete ∨ a = Step.sRegisterFeature true := by
  cases a <;> simp_all [applyStep, doSetup, doStart] <;>
    revert h <;> split <;> simp_all

lemma tpcAtStore_setter (s : ExecState) (a : Step)
    (h : (applyStep s a).startPC = StartPc.atStore) :
    s.startPC = StartPc.atStore ∨ a = Step.tInitBrowser true := by
  cases a <;> simp_all [applyStep, doSetup, doStart] <;>
    revert h <;> split <;> simp_all

lemma tpcAtQueue_setter (s : ExecState) (a : Step)
    (h : (applyStep s a).startPC = StartPc.atQueue) :
    s.startPC = StartPc.atQueue ∨ a = Step.tInitStore := by
  cases a <;> simp_all [applyStep, doSetup, doStart] <;>
    revert h <;> split <;> simp_all

lemma featureInvocations_applyStep (s : ExecState) (a : Step) :
    (applyStep s a).featureInvocations =
      s.featureInvocations + (if isRegStep a then 1 else 0) := by
  cases a <;> simp [applyStep, doSetup, doStart, isRegStep] <;> split <;> simp

lemma featureInvocations_run (t : List Step) :
    ∀ s : ExecState, (run s t).featureInvocations =
      s.featureInvocations + t.countP isRegStep := by
  induction t with
  | nil => intro s; simp [run_nil]
  | cons a t ih =>
      intro s
      rw [run_cons, ih, featureInvocations_applyStep, List.countP_cons]
      omega

/-! ## Global reachability invariant -/

/-- Invariant of every state reachable from initState: it ties the setup
program counter to what the setup task has established (the config only
exists from atRegister on, registerFeature has run exactly once at
atComplete), the start program counter to the completion of the setup
task, and the readiness flags to setup completion. -/
def GInv (s : ExecState) : Prop :=
  (s.coreCreated = s.setupScheduled) ∧
  (s.setupScheduled = false → s.setupPC = SetupPc.atResolve) ∧
  (s.setupPC = SetupPc.atResolve →
    s.configSet = false ∧ s.setupDone = false ∧ s.featureInvocations = 0) ∧
  (s.setupPC = SetupPc.atSetConfig →
    s.configSet = false ∧ s.setupDone = false ∧ s.featureInvocations = 0) ∧
  (s.setupPC = SetupPc.atRegister →
    s.configSet = true ∧ s.setupDone = false ∧ s.featureInvocations = 0) ∧
  (s.setupPC = SetupPc.atComplete →
    s.configSet = true ∧ s.setupDone = false ∧ s.featureInvocations = 1) ∧
  (s.setupPC = SetupPc.atCatch → s.setupDone = false) ∧
  (s.setupDone = true → s.configSet = true ∧ s.setupPC = SetupPc.done) ∧
  ((s.startPC = StartPc.atGetConfig ∨ s.startPC = StartPc.atBrowser ∨
    s.startPC = StartPc.atStore ∨ s.startPC = StartPc.atQueue ∨
    s.startPC = StartPc.atPluginStart) → s.setupDone = true) ∧
  (s.startScheduled = false → s.startPC = StartPc.atAwait) ∧
  (s.pollingStarted = true → s.setupDone = true) ∧
  (s.started = true → s.setupDone = true) ∧
  (s.featureInvocations ≤ 1)

lemma ginv_init : GInv initState := by
  constructor <;> decide

lemma ginv_step (s : ExecState) (a : Step) (hI : GInv s)
    (hE : enabled s a = true) : GInv (applyStep s a) := by
  obtain ⟨g1, g2, g3, g4, g5, g6, g7, g8, g9, g10, g11, g12, g13⟩ := hI
  cases a with
  | callSetup =>
      simp only [enabled, Bool.not_eq_true'] at hE
      have hpc := g2 hE
      obtain ⟨hc, hd, hf⟩ := g3 hpc
      simp only [applyStep, doSetup, GInv]
      simp_all
  | callStart =>
      simp only [enabled, Bool.not_eq_true'] at hE
      simp only [applyStep, doStart, GInv]
      split <;> simp_all
  | sResolveConfig ok =>
      simp only [enabled, Bool.and_eq_true, decide_eq_true_eq] at hE
      obtain ⟨hc, hd, hf⟩ := g3 hE.2
      cases ok <;> simp only [applyStep, GInv] <;> simp_all
  | sSetConfig =>
      simp only [enabled, Bool.and_eq_true, decide_eq_true_eq] at hE
      obtain ⟨hc, hd, hf⟩ := g4 hE.2
      simp only [applyStep, GInv]
      simp_all
  | sRegisterFeature ok =>
      simp only [enabled, Bool.and_eq_true, decide_eq_true_eq] at hE
      obtain ⟨hc, hd, hf⟩ := g5 hE.2
      cases ok <;> simp only [applyStep, GInv] <;> simp_all
  | sComplete =>
      simp only [enabled, Bool.and_eq_true, decide_eq_true_eq] at hE
      obtain ⟨hc, hd, hf⟩ := g6 hE.2
      simp only [applyStep, GInv]
      simp_all
  | sCatch =>
      simp only [enabled, Bool.and_eq_true, decide_eq_true_eq] at hE
      have hd := g7 hE.2
      simp only [applyStep, GInv]
      simp_all
  | tAwaitSetup =>
      simp only [enabled, Bool.and_eq_true, decide_eq_true_eq] at hE
      simp only [applyStep, GInv]
      simp_all
  | tGetConfig =>
      simp only [enabled, Bool.and_eq_true, decide_eq_true_eq] at hE
      have hd := g9 (Or.inl hE.2)
      simp only [applyStep, GInv]
      split <;> simp_all
  | tInitBrowser ok =>
      simp only [enabled, Bool.and_eq_true, decide_eq_true_eq] at hE
      have hd := g9 (Or.inr (Or.inl hE.2))
      cases ok <;> simp only [applyStep, GInv] <;> simp_all
  | tInitStore =>
      simp only [enabled, Bool.and_eq_true, decide_eq_true_eq] at hE
      have hd := g9 (Or.inr (Or.inr (Or.inl hE.2)))
      simp only [applyStep, GInv]
      simp_all
  | tCreateQueue ok =>
      simp only [enabled, Bool.and_eq_true, decide_eq_true_eq] at hE
      have hd := g9 (Or.inr (Or.inr (Or.inr (Or.inl hE.2))))
      cases ok <;> simp only [applyStep, GInv] <;> simp_all
  | tPluginStart =>
      simp only [enabled, Bool.and_eq_true, decide_eq_true_eq] at hE
      have hd := g9 (Or.inr (Or.inr (Or.inr (Or.inr hE.2))))
      simp only [applyStep, GInv]
      simp_all
  | tCatch =>
      simp only [enabled, Bool.and_eq_true, decide_eq_true_eq] at hE
      simp only [applyStep, GInv]
      simp_all

lemma ginv_reach (t : List Step) (hv : validFrom initState t = true) :
    GInv (run initState t) :=
  inv_run GInv ginv_step t initState ginv_init hv

/-! ## Behavior after a background task reaches its catch handler -/

/-- Once the background setup task is at (or past) its .catch handler,
the only thing it can still do is run that handler, which records the
failure and logs the error. -/
def RSetup (s : ExecState) : Prop :=
  s.setupScheduled = true ∧
  (s.setupPC = SetupPc.atCatch ∨
    (s.setupPC = SetupPc.done ∧ s.setupFailed = true ∧ LogMsg.setupErr ∈ s.log))

lemma rsetup_step (s : ExecState) (a : Step) (h : RSetup s)
    (hE : enabled s a = true) : RSetup (applyStep s a) := by
  obtain ⟨h1, h2⟩ := h
  refine ⟨mono_setupScheduled s a h1, ?_⟩
  cases a with
  | callSetup => simp [enabled, h1] at hE
  | callStart =>
      simp only [applyStep, doStart]
      rcases h2 with h2 | ⟨ha, hb, hc2⟩
      · split <;> exact Or.inl h2
      · split <;> exact Or.inr ⟨ha, hb, hc2⟩
  | sResolveConfig ok =>
      rcases h2 with h2 | ⟨h2, _, _⟩ <;> simp [enabled, h2] at hE
  | sSetConfig =>
      rcases h2 with h2 | ⟨h2, _, _⟩ <;> simp [enabled, h2] at hE
  | sRegisterFeature ok =>
      rcases h2 with h2 | ⟨h2, _, _⟩ <;> simp [enabled, h2] at hE
  | sComplete =>
      rcases h2 with h2 | ⟨h2, _, _⟩ <;> simp [enabled, h2] at hE
  | sCatch =>
      simp [applyStep]
  | tAwaitSetup =>
      simp only [applyStep]
      exact h2
  | tGetConfig =>
      simp only [applyStep]
      split <;> exact h2
  | tInitBrowser ok =>
      simp only [applyStep]
      split <;> exact h2
  | tInitStore =>
      simp only [applyStep]
      exact h2
  | tCreateQueue ok =>
      simp only [applyStep]
      split <;> exact h2
  | tPluginStart =>
      rcases h2 with h2 | ⟨ha, hb, hc2⟩
      · exact Or.inl h2
      · exact Or.inr ⟨ha, hb, List.mem_append_left _ hc2⟩
  | tCatch =>
      rcases h2 with h2 | ⟨ha, hb, hc2⟩
      · exact Or.inl h2
      · exact Or.inr ⟨ha, hb, List.mem_append_left _ hc2⟩

lemma setup_catch_failed (s : ExecState) (r : List Step)
    (h1 : s.setupScheduled = true) (h2 : s.setupPC = SetupPc.atCatch)
    (hv : validFrom s r = true) (hc : isComplete (run s r) = true) :
    (run s r).setupFailed = true ∧ LogMsg.setupErr ∈ (run s r).log := by
  have hR : RSetup (run s r) := inv_run RSetup rsetup_step r s ⟨h1, Or.inl h2⟩ hv
  obtain ⟨hs, hd | hd⟩ := hR
  · exfalso
    have hne := complete_not_enabled (run s r) Step.sCatch (by decide) hc
    simp [enabled, hs, hd] at hne
  · exact ⟨hd.2.1, hd.2.2⟩

/-- Once the background start task is at (or past) its .catch handler,
the only thing it can still do is run that handler, which records the
failure and logs the error. -/
def RStart (s : ExecState) : Prop :=
  s.startScheduled = true ∧
  (s.startPC = StartPc.atCatchT ∨
    (s.startPC = StartPc.doneT ∧ s.startFailed = true ∧ LogMsg.startErr ∈ s.log))

lemma rstart_step (s : ExecState) (a : Step) (h : RStart s)
    (hE : enabled s a = true) : RStart (applyStep s a) := by
  obtain ⟨h1, h2⟩ := h
  refine ⟨mono_startScheduled s a h1, ?_⟩
  cases a with
  | callSetup =>
      simp only [applyStep, doSetup]
      exact h2
  | callStart => simp [enabled, h1] at hE
  | sResolveConfig ok =>
      simp only [applyStep]
      split <;> exact h2
  | sSetConfig =>
      simp only [applyStep]
      exact h2
  | sRegisterFeature ok =>
      simp only [applyStep]
      exact h2
  | sComplete =>
      rcases h2 with h2 | ⟨ha, hb, hc2⟩
      · exact Or.inl h2
      · exact Or.inr ⟨ha, hb, List.mem_append_left _ hc2⟩
  | sCatch =>
      rcases h2 with h2 | ⟨ha, hb, hc2⟩
      · exact Or.inl h2
      · exact Or.inr ⟨ha, hb, List.mem_append_left _ hc2⟩
  | tAwaitSetup =>
      rcases h2 with h2 | ⟨h2, _, _⟩ <;> simp [enabled, h2] at hE
  | tGetConfig =>
      rcases h2 with h2 | ⟨h2, _, _⟩ <;> simp [enabled, h2] at hE
  | tInitBrowser ok =>
      rcases h2 with h2 | ⟨h2, _, _⟩ <;> simp [enabled, h2] at hE
  | tInitStore =>
      rcases h2 with h2 | ⟨h2, _, _⟩ <;> simp [enabled, h2] at hE
  | tCreateQueue ok =>
      rcases h2 with h2 | ⟨h2, _, _⟩ <;> simp [enabled, h2] at hE
  | tPluginStart =>
      rcases h2 with h2 | ⟨h2, _, _⟩ <;> simp [enabled, h2] at hE
  | tCatch =>
      simp [applyStep]

lemma start_catch_failed (s : ExecState) (r : List Step)
    (h1 : s.startScheduled = true) (h2 : s.startPC = StartPc.atCatchT)
    (hv : validFrom s r = true) (hc : isComplete (run s r) = true) :
    (run s r).startFailed = true ∧ LogMsg.startErr ∈ (run s r).log := by
  have hR : RStart (run s r) := inv_run RStart rstart_step r s ⟨h1, Or.inl h2⟩ hv
  obtain ⟨hs, hd | hd⟩ := hR
  · exfalso
    have hne := complete_not_enabled (run s r) Step.tCatch (by decide) hc
    simp [enabled, hs, hd] at hne
  · exact ⟨hd.2.1, hd.2.2⟩

/-! ## Behavior after config resolution fails -/

/-- After config resolution fails, the config is never set, the setup
task never completes, the start task never leaves its await (or its
catch path, when start was called before setup), and neither polling nor
readiness is ever reached. -/
def PFail (s : ExecState) : Prop :=
  s.setupScheduled = true ∧ s.configSet = false ∧ s.setupDone = false ∧
  s.pollingStarted = false ∧ s.started = false ∧
  (s.setupPC = SetupPc.atCatch ∨ s.setupPC = SetupPc.done) ∧
  (s.startPC = StartPc.atAwait ∨ s.startPC = StartPc.atCatchT ∨
    s.startPC = StartPc.doneT)

lemma pfail_step (s : ExecState) (a : Step) (h : PFail s)
    (hE : enabled s a = true) : PFail (applyStep s a) := by
  obtain ⟨h1, h2, h3, h4, h5, h6, h7⟩ := h
  cases a with
  | callSetup => simp [enabled, h1] at hE
  | callStart =>
      simp only [applyStep, doStart]
      split <;> simp_all [PFail]
  | sResolveConfig ok =>
      rcases h6 with h6 | h6 <;> simp [enabled, h6] at hE
  | sSetConfig =>
      rcases h6 with h6 | h6 <;> simp [enabled, h6] at hE
  | sRegisterFeature ok =>
      rcases h6 with h6 | h6 <;> simp [enabled, h6] at hE
  | sComplete =>
      rcases h6 with h6 | h6 <;> simp [enabled, h6] at hE
  | sCatch =>
      simp only [applyStep]
      simp_all [PFail]
  | tAwaitSetup => simp [enabled, h3] at hE
  | tGetConfig =>
      rcases h7 with h7 | h7 | h7 <;> simp [enabled, h7] at hE
  | tInitBrowser ok =>
      rcases h7 with h7 | h7 | h7 <;> simp [enabled, h7] at hE
  | tInitStore =>
      rcases h7 with h7 | h7 | h7 <;> simp [enabled, h7] at hE
  | tCreateQueue ok =>
      rcases h7 with h7 | h7 | h7 <;> simp [enabled, h7] at hE
  | tPluginStart =>
      rcases h7 with h7 | h7 | h7 <;> simp [enabled, h7] at hE
  | tCatch =>
      simp only [applyStep]
      simp_all [PFail]

/-! ## Job claiming (esqueue / JobStore) -/

/-- Status of a Job in the JobStore. -/
inductive JobStatus where
  | pending
  | claimed (worker : Nat)
  | processing (worker : Nat)
  | completed
  | failed
deriving DecidableEq, Repr

/-- Status map of the JobStore, by job id. -/
def JStore : Type := Nat → JobStatus

/-- Modelled from the spec: createQueueFactory and the esqueue internals
are not under src/; the spec gives the JobStore contract
TryClaim(jobId, claimant) -> bool, an atomic compare-and-set that moves a
job from Pending to Claimed by exactly the given claimant and fails (a
lost race, not an error) on a job in any other status. -/
def tryClaim (st : JStore) (jobId worker : Nat) : Bool × JStore :=
  match st jobId with
  | JobStatus.pending =>
      (true, fun k => if k = jobId then JobStatus.claimed worker else st k)
  | _ => (false, st)

/-- Number of successful claims of job j over a sequence of claim
attempts (jobId, worker) executed against the store in order.  Because
the storage-layer claim is atomic, any interleaving of concurrent
pollers is some such sequence. -/
def claimSuccesses (st : JStore) (j : Nat) : List (Nat × Nat) → Nat
  | [] => 0
  | (j', w) :: rest =>
      (if (tryClaim st j' w).1 && decide (j' = j) then 1 else 0) +
        claimSuccesses (tryClaim st j' w).2 j rest

lemma claimSuccesses_of_not_pending (attempts : List (Nat × Nat)) :
    ∀ (st : JStore) (j : Nat), st j ≠ JobStatus.pending →
      claimSuccesses st j attempts = 0 := by
  induction attempts with
  | nil => intro st j _; rfl
  | cons a rest ih =>
      intro st j hj
      obtain ⟨j', w⟩ := a
      by_cases hp : st j' = JobStatus.pending
      · have hne : ¬(j' = j) := fun h => hj (h ▸ hp)
        rw [claimSuccesses]
        simp only [tryClaim, hp]
        rw [if_neg (by simp [hne])]
        rw [Nat.zero_add]
        apply ih
        show (if j = j' then JobStatus.claimed w else st j) ≠ JobStatus.pending
        rw [if_neg (fun h => hne h.symm)]
        exact hj
      · have h1 : tryClaim st j' w = (false, st) := by
          unfold tryClaim
          rcases hstj : st j' with _ | w0 | w0 | _ | _ <;> simp_all
        rw [claimSuccesses, h1]
        simp only [Bool.false_and, if_neg (by simp : ¬(false = true ∧ True))]
        rw [if_neg (by simp), Nat.zero_add]
        exact ih st j hj

/-! ## Invariant for the contract identity -/

/-- After setup() on a fresh plugin, the core (and hence the contract
identity) never changes again: setup() cannot run twice, and no other
step touches the core reference. -/
def QCore (s : ExecState) : Prop :=
  s.setupScheduled = true ∧ s.coreCreated = true ∧ s.coreId = 1

lemma qcore_step (s : ExecState) (a : Step) (h : QCore s)
    (hE : enabled s a = true) : QCore (applyStep s a) := by
  obtain ⟨h1, h2, h3⟩ := h
  cases a with
  | callSetup => simp [enabled, h1] at hE
  | callStart =>
      simp only [applyStep, doStart]
      split <;> exact ⟨h1, h2, h3⟩
  | sResolveConfig ok =>
      simp only [applyStep]
      split <;> exact ⟨h1, h2, h3⟩
  | sSetConfig => exact ⟨h1, h2, h3⟩
  | sRegisterFeature ok => exact ⟨h1, h2, h3⟩
  | sComplete => exact ⟨h1, h2, h3⟩
  | sCatch => exact ⟨h1, h2, h3⟩
  | tAwaitSetup => exact ⟨h1, h2, h3⟩
  | tGetConfig =>
      simp only [applyStep]
      split <;> exact ⟨h1, h2, h3⟩
  | tInitBrowser ok =>
      simp only [applyStep]
      split <;> exact ⟨h1, h2, h3⟩
  | tInitStore => exact ⟨h1, h2, h3⟩
  | tCreateQueue ok =>
      simp only [applyStep]
      split <;> exact ⟨h1, h2, h3⟩
  | tPluginStart => exact ⟨h1, h2, h3⟩
  | tCatch => exact ⟨h1, h2, h3⟩

/-! ## Claims -/

/-- C2: Setup and Start are synchronous.  Each host call is a pure
function that returns a StartContract while having executed none of its
background task: immediately after setup() returns, and still
immediately after start() returns, the config is unresolved
(buildConfig has not completed) and both background program counters sit
on their first statement. -/
theorem c2_setup_start_synchronous :
    (doSetup initState).2 = { coreId := 1 } ∧
    (doSetup initState).1.configSet = false ∧
    (doSetup initState).1.setupPC = SetupPc.atResolve ∧
    (doStart (doSetup initState).1).2 = Except.ok { coreId := 1 } ∧
    (doStart (doSetup initState).1).1.configSet = false ∧
    (doStart (doSetup initState).1).1.setupPC = SetupPc.atResolve ∧
    (doStart (doSetup initState).1).1.startPC = StartPc.atAwait := by
  exact ⟨rfl, rfl, rfl, rfl, rfl, rfl, rfl⟩

/-- C5: when the lifecycle is not Ready, the route handler context
callback returns the null sentinel instead of throwing, and its only
effect is the error log entry: every other field of the state is that of
the input state. -/
theorem c5_route_context_not_ready (s : ExecState)
    (h : pluginIsStarted s = false) :
    (routeHandlerContext s).2 = none ∧
    (routeHandlerContext s).1 = { s with log := s.log ++ [LogMsg.notReadyErr] } := by
  simp [routeHandlerContext, h]

theorem c5_witness :
    pluginIsStarted initState = false ∧
    (routeHandlerContext initState).2 = none ∧
    (routeHandlerContext initState).1 =
      { initState with log := initState.log ++ [LogMsg.notReadyErr] } := by
  refine ⟨rfl, ?_, ?_⟩
  · exact (c5_route_context_not_ready initState rfl).1
  · exact (c5_route_context_not_ready initState rfl).2

/-- C6: on a plugin on which setup() was called and then, after any
valid background activity, start() is called, start() returns exactly
the StartContract identity that setup() returned. -/
theorem c6_start_returns_setup_contract (t : List Step)
    (hv : validFrom (doSetup initState).1 t = true) :
    (doStart (run (doSetup initState).1 t)).2 =
      Except.ok (doSetup initState).2 := by
  obtain ⟨h1, h2, h3⟩ :=
    inv_run QCore qcore_step t (doSetup initState).1 ⟨rfl, rfl, rfl⟩ hv
  simp only [doStart]
  rw [if_pos h2, h3]
  rfl

theorem c6_witness :
    (doStart (run (doSetup initState).1 [])).2 =
      Except.ok (doSetup initState).2 :=
  c6_start_returns_setup_contract [] rfl

/-- C10: calling start() on a plugin on which setup() was never called
(no reportingCore) fails synchronously: the non-null assertion
dereferences undefined, so the host receives a TypeError instead of a
StartContract or a not-ready sentinel, and the scheduled background task
is routed straight to its catch handler. -/
theorem c10_start_without_setup_throws (s : ExecState)
    (h : s.coreCreated = false) :
    (doStart s).2 = Except.error HostError.typeError ∧
    (doStart s).1.hostErr = true ∧
    (doStart s).1.startPC = StartPc.atCatchT := by
  simp [doStart, h]

theorem c10_witness :
    initState.coreCreated = false ∧
    (doStart initState).2 = Except.error HostError.typeError ∧
    (doStart initState).1.hostErr = true := by
  refine ⟨rfl, ?_, ?_⟩
  · exact (c10_start_without_setup_throws initState rfl).1
  · exact (c10_start_without_setup_throws initState rfl).2.1

/-! ## Ordering inside the start task -/

lemma validFrom_prefix (s : ExecState) (l r : List Step)
    (hv : validFrom s (l ++ r) = true) : validFrom s l = true := by
  rw [validFrom_append, Bool.and_eq_true] at hv
  exact hv.1

lemma browser_before_store (l r : List Step)
    (hv : validFrom initState (l ++ Step.tInitStore :: r) = true) :
    Step.tInitBrowser true ∈ l := by
  rw [validFrom_append, Bool.and_eq_true] at hv
  obtain ⟨hl, hr⟩ := hv
  rw [validFrom, Bool.and_eq_true] at hr
  have hE := hr.1
  simp only [enabled, Bool.and_eq_true, decide_eq_true_eq] at hE
  exact flag_history (fun s => decide (s.startPC = StartPc.atStore))
    (Step.tInitBrowser true)
    (fun s a h => by
      rcases tpcAtStore_setter s a (by simpa using h) with h' | h'
      · exact Or.inl (by simpa using h')
      · exact Or.inr h')
    l initState (by decide) (by simp [hE.2])

lemma store_before_queue (l r : List Step) (b : Bool)
    (hv : validFrom initState (l ++ Step.tCreateQueue b :: r) = true) :
    Step.tInitStore ∈ l := by
  rw [validFrom_append, Bool.and_eq_true] at hv
  obtain ⟨hl, hr⟩ := hv
  rw [validFrom, Bool.and_eq_true] at hr
  have hE := hr.1
  simp only [enabled, Bool.and_eq_true, decide_eq_true_eq] at hE
  exact flag_history (fun s => decide (s.startPC = StartPc.atQueue))
    Step.tInitStore
    (fun s a h => by
      rcases tpcAtQueue_setter s a (by simpa using h) with h' | h'
      · exact Or.inl (by simpa using h')
      · exact Or.inr h')
    l initState (by decide) (by simp [hE.2])

/-- C1: the background start task reads the config only after the setup
task has completed.  In every valid execution, whenever the step
reportingCore.getConfig() fires, the SetupComplete step already occurred
earlier in the trace, and at that moment the config is resolved and the
setup task has finished. -/
theorem c1_start_waits_for_setup (l r : List Step)
    (hv : validFrom initState (l ++ Step.tGetConfig :: r) = true) :
    Step.sComplete ∈ l ∧
    (run initState l).configSet = true ∧
    (run initState l).setupPC = SetupPc.done := by
  rw [validFrom_append, Bool.and_eq_true] at hv
  obtain ⟨hl, hr⟩ := hv
  rw [validFrom, Bool.and_eq_true] at hr
  have hE := hr.1
  simp only [enabled, Bool.and_eq_true, decide_eq_true_eq] at hE
  obtain ⟨g1, g2, g3, g4, g5, g6, g7, g8, g9, g10, g11, g12, g13⟩ :=
    inv_run GInv ginv_step l initState ginv_init hl
  have hd : (run initState l).setupDone = true := g9 (Or.inl hE.2)
  obtain ⟨hcfg, hpc⟩ := g8 hd
  refine ⟨?_, hcfg, hpc⟩
  exact flag_history (fun s => s.setupDone) Step.sComplete
    (fun s a h => setupDone_setter s a h) l initState rfl hd

theorem c1_witness :
    validFrom initState
      (demoTrace.take 7 ++ Step.tGetConfig :: demoTrace.drop 8) = true ∧
    Step.sComplete ∈ demoTrace.take 7 ∧
    (run initState (demoTrace.take 7)).configSet = true := by
  refine ⟨by decide, ?_, ?_⟩
  · exact (c1_start_waits_for_setup (demoTrace.take 7) (demoTrace.drop 8)
      (by decide)).1
  · exact (c1_start_waits_for_setup (demoTrace.take 7) (demoTrace.drop 8)
      (by decide)).2.1

/-- C4, counterexample: a valid execution of the start task in which the
BrowserDriverFactory initialization step has already run while the
JobStore (ReportingStore) has not yet been created, refuting the claimed
order JobStore first, then BrowserDriverFactory: plugin.ts awaits
initializeBrowserDriverFactory before constructing the ReportingStore. -/
theorem c4_counterexample :
    validFrom initState demoTrace = true ∧
    Step.tInitBrowser true ∈ demoTrace.take 9 ∧
    Step.tInitStore ∉ demoTrace.take 9 := by
  decide

/-- C4, amended: in every execution of the start task, the
initialization order is BrowserDriverFactory first, then the JobStore
(ReportingStore), then the JobQueue (createQueueFactory): whenever the
store-creation step fires, the browser driver factory has already been
initialized, and whenever the queue-creation step fires, both earlier
steps have already run. -/
theorem c4_start_init_order (t : List Step)
    (hv : validFrom initState t = true) :
    (∀ l r, t = l ++ Step.tInitStore :: r → Step.tInitBrowser true ∈ l) ∧
    (∀ l r b, t = l ++ Step.tCreateQueue b :: r →
      Step.tInitStore ∈ l ∧ Step.tInitBrowser true ∈ l) := by
  constructor
  · intro l r heq
    subst heq
    exact browser_before_store l r hv
  · intro l r b heq
    subst heq
    have h1 : Step.tInitStore ∈ l := store_before_queue l r b hv
    refine ⟨h1, ?_⟩
    obtain ⟨l₁, l₂, rfl⟩ := List.append_of_mem h1
    have hvl : validFrom initState (l₁ ++ Step.tInitStore :: l₂) = true :=
      validFrom_prefix initState _ _ hv
    exact List.mem_append_left _ (browser_before_store l₁ l₂ hvl)

theorem c4_witness :
    Step.tInitBrowser true ∈ demoTrace.take 9 ∧
    Step.tInitStore ∈ demoTrace.take 10 := by
  constructor
  · exact (c4_start_init_order demoTrace (by decide)).1 (demoTrace.take 9)
      [Step.tCreateQueue true, Step.tPluginStart] (by decide)
  · exact ((c4_start_init_order demoTrace (by decide)).2 (demoTrace.take 10)
      [Step.tPluginStart] true (by decide)).1

/-- C7: if config resolution fails in the background setup task, the
plugin never reports itself ready (pluginIsStarted stays false in every
continuation of the execution), job-queue polling never starts, and once
the execution has run to completion the lifecycle has been marked failed
and the failure logged. -/
theorem c7_config_failure_permanent (l r : List Step)
    (hv : validFrom initState (l ++ Step.sResolveConfig false :: r) = true) :
    pluginIsStarted (run initState (l ++ Step.sResolveConfig false :: r)) = false ∧
    (run initState (l ++ Step.sResolveConfig false :: r)).pollingStarted = false ∧
    (isComplete (run initState (l ++ Step.sResolveConfig false :: r)) = true →
      (run initState (l ++ Step.sResolveConfig false :: r)).setupFailed = true ∧
      LogMsg.setupErr ∈ (run initState (l ++ Step.sResolveConfig false :: r)).log) := by
  have hrun : run initState (l ++ Step.sResolveConfig false :: r) =
      run (applyStep (run initState l) (Step.sResolveConfig false)) r := by
    rw [run_append, run_cons]
  rw [validFrom_append, Bool.and_eq_true] at hv
  obtain ⟨hl, hr⟩ := hv
  rw [validFrom, Bool.and_eq_true] at hr
  obtain ⟨hE, hvr⟩ := hr
  simp only [enabled, Bool.and_eq_true, decide_eq_true_eq] at hE
  obtain ⟨g1, g2, g3, g4, g5, g6, g7, g8, g9, g10, g11, g12, g13⟩ :=
    inv_run GInv ginv_step l initState ginv_init hl
  obtain ⟨hcfg, hd, hf⟩ := g3 hE.2
  have hpoll : (run initState l).pollingStarted = false := by
    rcases hp : (run initState l).pollingStarted
    · rfl
    · have hcon := g11 hp
      rw [hd] at hcon
      exact absurd hcon (by simp)
  have hstarted : (run initState l).started = false := by
    rcases hp : (run initState l).started
    · rfl
    · have hcon := g12 hp
      rw [hd] at hcon
      exact absurd hcon (by simp)
  have hstartpc : (run initState l).startPC = StartPc.atAwait ∨
      (run initState l).startPC = StartPc.atCatchT ∨
      (run initState l).startPC = StartPc.doneT := by
    rcases hsp : (run initState l).startPC with _ | _ | _ | _ | _ | _ | _ | _
    · exact Or.inl rfl
    · have hcon := g9 (Or.inl hsp); rw [hd] at hcon; exact absurd hcon (by simp)
    · have hcon := g9 (Or.inr (Or.inl hsp)); rw [hd] at hcon
      exact absurd hcon (by simp)
    · have hcon := g9 (Or.inr (Or.inr (Or.inl hsp))); rw [hd] at hcon
      exact absurd hcon (by simp)
    · have hcon := g9 (Or.inr (Or.inr (Or.inr (Or.inl hsp)))); rw [hd] at hcon
      exact absurd hcon (by simp)
    · have hcon := g9 (Or.inr (Or.inr (Or.inr (Or.inr hsp)))); rw [hd] at hcon
      exact absurd hcon (by simp)
    · exact Or.inr (Or.inl rfl)
    · exact Or.inr (Or.inr rfl)
  have hP : PFail (applyStep (run initState l) (Step.sResolveConfig false)) :=
    ⟨hE.1, hcfg, hd, hpoll, hstarted, Or.inl rfl, hstartpc⟩
  rw [hrun]
  obtain ⟨q1, q2, q3, q4, q5, q6, q7⟩ :=
    inv_run PFail pfail_step r _ hP hvr
  exact ⟨q5, q4, fun hc => setup_catch_failed _ r hE.1 rfl hvr hc⟩

theorem c7_witness :
    validFrom initState failTrace = true ∧
    pluginIsStarted (run initState failTrace) = false ∧
    (run initState failTrace).pollingStarted = false ∧
    (run initState failTrace).setupFailed = true := by
  have h := c7_config_failure_permanent [Step.callSetup]
    [Step.sCatch, Step.callStart] (by decide)
  exact ⟨by decide, h.1, h.2.1, (h.2.2 (by decide)).1⟩

/-- C8: the background setup task resolves the config, then invokes
registerFeature (at a point where the config is already resolved, having
been stored by setConfig, which itself follows a successful buildConfig),
then marks setup complete (which presupposes registerFeature succeeded);
and registerFeature is invoked at most once in any execution. -/
theorem c8_setup_task_order (t : List Step)
    (hv : validFrom initState t = true) :
    countRegister t ≤ 1 ∧
    (∀ l r b, t = l ++ Step.sRegisterFeature b :: r →
      (run initState l).configSet = true ∧ Step.sSetConfig ∈ l ∧
      Step.sResolveConfig true ∈ l) ∧
    (∀ l r, t = l ++ Step.sComplete :: r →
      Step.sRegisterFeature true ∈ l ∧ (run initState l).configSet = true) := by
  refine ⟨?_, ?_, ?_⟩
  · obtain ⟨g1, g2, g3, g4, g5, g6, g7, g8, g9, g10, g11, g12, g13⟩ :=
      inv_run GInv ginv_step t initState ginv_init hv
    have hcount := featureInvocations_run t initState
    have h0 : initState.featureInvocations = 0 := rfl
    rw [h0] at hcount
    show t.countP isRegStep ≤ 1
    omega
  · intro l r b heq
    subst heq
    have hl := validFrom_prefix initState l _ hv
    have hr : validFrom (run initState l) (Step.sRegisterFeature b :: r) = true := by
      rw [validFrom_append, Bool.and_eq_true] at hv
      exact hv.2
    rw [validFrom, Bool.and_eq_true] at hr
    have hE := hr.1
    simp only [enabled, Bool.and_eq_true, decide_eq_true_eq] at hE
    obtain ⟨p1, p2, p3, p4, p5, p6, p7, p8, p9, p10, p11, p12, p13⟩ :=
      inv_run GInv ginv_step l initState ginv_init hl
    obtain ⟨hcfg, _, _⟩ := p5 hE.2
    have hmemSet : Step.sSetConfig ∈ l :=
      flag_history (fun s => s.configSet) Step.sSetConfig
        (fun s a h => configSet_setter s a h) l initState rfl hcfg
    refine ⟨hcfg, hmemSet, ?_⟩
    obtain ⟨l₁, l₂, rfl⟩ := List.append_of_mem hmemSet
    rw [validFrom_append, Bool.and_eq_true] at hl
    obtain ⟨hl1, hl2⟩ := hl
    rw [validFrom, Bool.and_eq_true] at hl2
    have hE2 := hl2.1
    simp only [enabled, Bool.and_eq_true, decide_eq_true_eq] at hE2
    refine List.mem_append_left _ ?_
    exact flag_history (fun s => decide (s.setupPC = SetupPc.atSetConfig))
      (Step.sResolveConfig true)
      (fun s a h => by
        rcases spcAtSetConfig_setter s a (by simpa using h) with h' | h'
        · exact Or.inl (by simpa using h')
        · exact Or.inr h')
      l₁ initState (by decide) (by simp [hE2.2])
  · intro l r heq
    subst heq
    have hl := validFrom_prefix initState l _ hv
    have hr : validFrom (run initState l) (Step.sComplete :: r) = true := by
      rw [validFrom_append, Bool.and_eq_true] at hv
      exact hv.2
    rw [validFrom, Bool.and_eq_true] at hr
    have hE := hr.1
    simp only [enabled, Bool.and_eq_true, decide_eq_true_eq] at hE
    obtain ⟨p1, p2, p3, p4, p5, p6, p7, p8, p9, p10, p11, p12, p13⟩ :=
      inv_run GInv ginv_step l initState ginv_init hl
    obtain ⟨hcfg, _, _⟩ := p6 hE.2
    refine ⟨?_, hcfg⟩
    exact flag_history (fun s => decide (s.setupPC = SetupPc.atComplete))
      (Step.sRegisterFeature true)
      (fun s a h => by
        rcases spcAtComplete_setter s a (by simpa using h) with h' | h'
        · exact Or.inl (by simpa using h')
        · exact Or.inr h')
      l initState (by decide) (by simp [hE.2])

theorem c8_witness :
    validFrom initState demoTrace = true ∧
    countRegister demoTrace ≤ 1 ∧
    (run initState (demoTrace.take 3)).configSet = true ∧
    Step.sSetConfig ∈ demoTrace.take 3 ∧
    Step.sResolveConfig true ∈ demoTrace.take 3 := by
  have h := c8_setup_task_order demoTrace (by decide)
  have h2 := h.2.1 (demoTrace.take 3) (demoTrace.drop 4) true (by decide)
  exact ⟨by decide, h.1, h2.1, h2.2.1, h2.2.2⟩

lemma bg_preserves_hostErr (s : ExecState) (a : Step)
    (h : isBgStep a = true) : (applyStep s a).hostErr = s.hostErr := by
  cases a <;> simp_all [isBgStep, applyStep] <;> split <;> rfl

lemma isSetupFailStep_eq (x : Step) (hx : isSetupFailStep x = true) :
    x = Step.sResolveConfig false ∨ x = Step.sRegisterFeature false := by
  cases x <;>
    first
    | (rename_i b; cases b <;> simp_all [isSetupFailStep])
    | simp_all [isSetupFailStep]

lemma isStartFailStep_eq (x : Step) (hx : isStartFailStep x = true) :
    x = Step.tInitBrowser false ∨ x = Step.tCreateQueue false := by
  cases x <;>
    first
    | (rename_i b; cases b <;> simp_all [isStartFailStep])
    | simp_all [isStartFailStep]

/-- C3: exceptions in the background tasks are contained.  A background
step never sets the host-error flag (only the synchronous dereference in
start() can, and that is not a background step), and in every completed
execution, a throw inside the background setup task (buildConfig
rejection or registerFeature failure) ends in that task's catch handler,
which logs the error and leaves the lifecycle failed; likewise for a
throw inside the background start task (browser driver factory or queue
factory failure). -/
theorem c3_background_errors_contained (s : ExecState) (a : Step)
    (t : List Step)
    (hbg : isBgStep a = true)
    (hv : validFrom initState t = true)
    (hc : isComplete (run initState t) = true) :
    (applyStep s a).hostErr = s.hostErr ∧
    (t.any isSetupFailStep = true →
      (run initState t).setupFailed = true ∧
      LogMsg.setupErr ∈ (run initState t).log) ∧
    (t.any isStartFailStep = true →
      (run initState t).startFailed = true ∧
      LogMsg.startErr ∈ (run initState t).log) := by
  refine ⟨bg_preserves_hostErr s a hbg, ?_, ?_⟩
  · intro hany
    rw [List.any_eq_true] at hany
    obtain ⟨x, hmem, hx⟩ := hany
    obtain ⟨l, m, rfl⟩ := List.append_of_mem hmem
    have hrun : run initState (l ++ x :: m) =
        run (applyStep (run initState l) x) m := by
      rw [run_append, run_cons]
    have hr : validFrom (run initState l) (x :: m) = true := by
      rw [validFrom_append, Bool.and_eq_true] at hv
      exact hv.2
    rw [validFrom, Bool.and_eq_true] at hr
    obtain ⟨hE, hvm⟩ := hr
    rw [hrun] at hc ⊢
    rcases isSetupFailStep_eq x hx with rfl | rfl
    · simp only [enabled, Bool.and_eq_true, decide_eq_true_eq] at hE
      exact setup_catch_failed _ m hE.1 rfl hvm hc
    · simp only [enabled, Bool.and_eq_true, decide_eq_true_eq] at hE
      exact setup_catch_failed _ m hE.1 rfl hvm hc
  · intro hany
    rw [List.any_eq_true] at hany
    obtain ⟨x, hmem, hx⟩ := hany
    obtain ⟨l, m, rfl⟩ := List.append_of_mem hmem
    have hrun : run initState (l ++ x :: m) =
        run (applyStep (run initState l) x) m := by
      rw [run_append, run_cons]
    have hr : validFrom (run initState l) (x :: m) = true := by
      rw [validFrom_append, Bool.and_eq_true] at hv
      exact hv.2
    rw [validFrom, Bool.and_eq_true] at hr
    obtain ⟨hE, hvm⟩ := hr
    rw [hrun] at hc ⊢
    rcases isStartFailStep_eq x hx with rfl | rfl
    · simp only [enabled, Bool.and_eq_true, decide_eq_true_eq] at hE
      exact start_catch_failed _ m hE.1 rfl hvm hc
    · simp only [enabled, Bool.and_eq_true, decide_eq_true_eq] at hE
      exact start_catch_failed _ m hE.1 rfl hvm hc

theorem c3_witness :
    isBgStep (Step.sResolveConfig false) = true ∧
    validFrom initState failTrace = true ∧
    isComplete (run initState failTrace) = true ∧
    failTrace.any isSetupFailStep = true ∧
    (run initState failTrace).setupFailed = true ∧
    LogMsg.setupErr ∈ (run initState failTrace).log := by
  have h := c3_background_errors_contained initState
    (Step.sResolveConfig false) failTrace (by decide) (by decide) (by decide)
  exact ⟨by decide, by decide, by decide, by decide,
    (h.2.1 (by decide)).1, (h.2.1 (by decide)).2⟩

lemma tryClaim_not_pending (st : JStore) (j' w : Nat)
    (hp : st j' ≠ JobStatus.pending) : tryClaim st j' w = (false, st) := by
  unfold tryClaim
  rcases hstj : st j' with _ | w0 | w0 | _ | _ <;> simp_all

/-- C9: a claim on a job is exclusive.  Over any sequence of claim
attempts executed against the store (any interleaving of any number of
concurrent pollers, the storage-layer compare-and-set being atomic), at
most one attempt ever succeeds in claiming a given job: two dispatch
attempts never both claim it. -/
theorem c9_claim_is_exclusive (st : JStore) (j : Nat)
    (attempts : List (Nat × Nat)) :
    claimSuccesses st j attempts ≤ 1 := by
  induction attempts generalizing st with
  | nil =>
      rw [claimSuccesses]
      exact Nat.zero_le 1
  | cons a rest ih =>
      obtain ⟨j', w⟩ := a
      by_cases hp : st j' = JobStatus.pending
      · rw [claimSuccesses]
        simp only [tryClaim, hp]
        by_cases hj : j' = j
        · subst hj
          have h0 : claimSuccesses
              (fun k => if k = j' then JobStatus.claimed w else st k) j' rest = 0 := by
            apply claimSuccesses_of_not_pending
            show (if j' = j' then JobStatus.claimed w else st j') ≠ JobStatus.pending
            simp
          rw [h0]
          simp
        · rw [if_neg (by simp [hj]), Nat.zero_add]
          exact ih _
      · rw [claimSuccesses, tryClaim_not_pending st j' w hp]
        rw [if_neg (by simp), Nat.zero_add]
        exact ih st
